import Mathlib

/-!
Verification development for the Iberia multi-city price monitor
(`monitor.py`).  Prices are modelled as rationals, Python dictionaries as
structures with `Option` fields (a missing JSON key is `none`), and Python
exceptions as `Except Unit`.  All definitions are executable.
-/

/-- Splits a list of characters on a single-character separator, mirroring
Python's `str.split(sep)` for a one-character `sep`: the separators are
dropped and the pieces (possibly empty) are returned in order. -/
def splitOnChar (sep : Char) : List Char → List (List Char)
  | [] => [[]]
  | c :: rest =>
    let r := splitOnChar sep rest
    if c = sep then [] :: r
    else
      match r with
      | [] => [[c]]
      | h :: t => (c :: h) :: t

/-- Substring test on character lists, mirroring Python's `needle in hay`. -/
def hasSubstr (hay needle : List Char) : Bool :=
  hay.tails.any (fun suf => needle.isPrefixOf suf)

/-- Value of a list of decimal digits. -/
def digitsToNat (cs : List Char) : Nat :=
  cs.foldl (fun n c => 10 * n + (c.toNat - ('0').toNat)) 0

/-- Models Python's `int(s)` on plain decimal literals (an optional sign
followed by at least one digit): `some` of the value, `none` where Python
raises `ValueError`. -/
def pyIntChars (cs : List Char) : Option Int :=
  match cs with
  | '-' :: ds =>
    if !ds.isEmpty && ds.all Char.isDigit then some (-(digitsToNat ds : Int)) else none
  | '+' :: ds =>
    if !ds.isEmpty && ds.all Char.isDigit then some (digitsToNat ds : Int) else none
  | ds =>
    if !ds.isEmpty && ds.all Char.isDigit then some (digitsToNat ds : Int) else none

/-- Magnitude part of a decimal literal: digits, optionally with a dot and a
fractional digit run; at least one digit overall. -/
def pyFloatMag (cs : List Char) : Option ℚ :=
  let ip := cs.takeWhile (fun c => c != '.')
  match cs.dropWhile (fun c => c != '.') with
  | [] =>
    if !ip.isEmpty && ip.all Char.isDigit then some ((digitsToNat ip : ℚ)) else none
  | _ :: fp =>
    if (!ip.isEmpty || !fp.isEmpty) && ip.all Char.isDigit && fp.all Char.isDigit then
      some ((digitsToNat ip : ℚ) + (digitsToNat fp : ℚ) / ((10 : ℚ) ^ fp.length))
    else none

/-- Models Python's `float(s)` on plain decimal literals (optional sign,
digits, optional fractional part): `some` of the value, `none` where Python
raises `ValueError`. -/
def pyFloat (s : String) : Option ℚ :=
  match s.toList with
  | '-' :: rest => (pyFloatMag rest).map (fun q => -q)
  | '+' :: rest => pyFloatMag rest
  | cs => pyFloatMag cs

/-- Uppercased character list of a string, mirroring Python's `str.upper`
on ASCII data. -/
def upperChars (s : String) : List Char :=
  s.toList.map Char.toUpper

/-- Mirrors Python's `str.startswith`. -/
def startsWithStr (s p : String) : Bool :=
  p.toList.isPrefixOf s.toList

/-- Decidable equality for `Except`, used to evaluate run results. -/
instance {ε α : Type} [DecidableEq ε] [DecidableEq α] : DecidableEq (Except ε α) := fun x y =>
  match x, y with
  | Except.ok a, Except.ok b =>
    if h : a = b then isTrue (by rw [h]) else isFalse (by intro hc; cases hc; exact h rfl)
  | Except.ok _, Except.error _ => isFalse (by intro hc; cases hc)
  | Except.error _, Except.ok _ => isFalse (by intro hc; cases hc)
  | Except.error e, Except.error f =>
    if h : e = f then isTrue (by rw [h]) else isFalse (by intro hc; cases hc; exact h rfl)

/-- An airport/time endpoint of a segment (the `departure` / `arrival`
dictionaries of the API payload).  The source field named `at` is rendered
`at_` because `at` is reserved in Lean. -/
structure Endpoint where
  iataCode : Option String
  at_ : Option String
deriving DecidableEq

/-- One physical flight inside an itinerary; only the fields the monitor
reads for matching are modelled. -/
structure Segment where
  departure : Option Endpoint
  arrival : Option Endpoint
deriving DecidableEq

/-- One priced leg of an offer. -/
structure Itinerary where
  duration : Option String
  segments : List Segment
deriving DecidableEq

/-- A price dictionary; `grandTotal` is read on offers, `total` on
traveler-pricing entries.  Amounts arrive as strings. -/
structure PriceRec where
  grandTotal : Option String
  total : Option String
deriving DecidableEq

/-- A per-segment fare-detail record of a traveler-pricing entry. -/
structure FareDetail where
  brandedFare : Option String
deriving DecidableEq

/-- One traveler-pricing entry of an offer. -/
structure TravelerPricing where
  travelerType : Option String
  price : Option PriceRec
  fareDetailsBySegment : List FareDetail
deriving DecidableEq

/-- A raw offer as the monitor reads it (missing keys are `none` / `[]`). -/
structure Offer where
  itineraries : List Itinerary
  price : Option PriceRec
  travelerPricings : List TravelerPricing
deriving DecidableEq

/-- One requested origin/destination leg (monitor.py lines 75-79). -/
structure OriginDestination where
  originLocationCode : String
  destinationLocationCode : String
  date : String
deriving DecidableEq

/-- ORIGIN_DESTINATIONS (monitor.py lines 75-79): the fixed three-leg
multi-city request SJU→FCO, FCO→MAD, MAD→SJU. -/
def ORIGIN_DESTINATIONS : List OriginDestination :=
  [OriginDestination.mk ("SJU") ("FCO") ("2026-05-06"),
   OriginDestination.mk ("FCO") ("MAD") ("2026-05-17"),
   OriginDestination.mk ("MAD") ("SJU") ("2026-05-20")]

/-- Models `int(x) if x else 0` (monitor.py lines 136, 140, 210, 214): an
empty part defaults to 0, a nonempty non-numeric part raises. -/
def parse_part (s : List Char) : Except Unit Int :=
  if s.isEmpty then Except.ok 0
  else
    match pyIntChars s with
    | some v => Except.ok v
    | none => Except.error ()

/-- Hour step of the duration parse (monitor.py lines 134-137 and 208-211):
if the text contains `H`, split on it, read the hour count (empty means 0),
and continue with the piece after the first `H` (or nothing). -/
def parse_h_part (tmp : List Char) : Except Unit (Int × List Char) :=
  if tmp.contains ('H') then
    match parse_part ((splitOnChar ('H') tmp).headD []) with
    | Except.error e => Except.error e
    | Except.ok h =>
      let p := splitOnChar ('H') tmp
      Except.ok (h, if 1 < p.length then p.tail.headD [] else [])
  else Except.ok (0, tmp)

/-- Minute step of the duration parse (monitor.py lines 138-140 and
212-214). -/
def parse_m_part (tmp : List Char) : Except Unit Int :=
  if tmp.contains ('M') then parse_part ((splitOnChar ('M') tmp).headD [])
  else Except.ok 0

/-- Combined hour/minute parse of the text after the `PT` marker, shared by
`format_duration` (lines 132-140) and `summarize_offer` (lines 206-214),
which inline the same logic. -/
def parse_hm (tmp : List Char) : Except Unit (Int × Int) :=
  match parse_h_part tmp with
  | Except.error e => Except.error e
  | Except.ok hw =>
    match parse_m_part hw.2 with
    | Except.error e => Except.error e
    | Except.ok m => Except.ok (hw.1, m)

/-- Embeds `format_duration` (monitor.py lines 128-141).  `none` models a
Python `None` argument; `dur or ""` maps falsy input to `""`.  The final
`.strip()` of the source is a no-op on `"<h>h <m>m"` and is omitted.  A
`ValueError` from `int(...)` is `Except.error ()`. -/
def format_duration (dur : Option String) : Except Unit String :=
  let d := dur.getD ""
  if d = "" || !startsWithStr d ("PT") then Except.ok d
  else
    match parse_hm (d.toList.drop 2) with
    | Except.error e => Except.error e
    | Except.ok hm => Except.ok (toString hm.1 ++ ("h ") ++ toString hm.2 ++ ("m"))

/-- Empty dictionary default for `seg.get("departure", {})`. -/
def emptyEndpoint : Endpoint := Endpoint.mk none none

/-- Loop body of `matches_routes_no_time` (monitor.py lines 154-170):
`od_idx` starts at 1 and the expected leg is `ORIGIN_DESTINATIONS[od_idx-1]`,
an access that raises `IndexError` (modelled `Except.error ()`) when the
index is out of range.  The empty-segments check precedes that access. -/
def matchLoop : Nat → List Itinerary → Except Unit Bool
  | _, [] => Except.ok true
  | odIdx, itin :: rest =>
    match itin.segments with
    | [] => Except.ok false
    | first :: _ =>
      match ORIGIN_DESTINATIONS.get? (odIdx - 1) with
      | none => Except.error ()
      | some od =>
        let dep := first.departure.getD emptyEndpoint
        let arr := first.arrival.getD emptyEndpoint
        if dep.iataCode ≠ some od.originLocationCode then Except.ok false
        else if arr.iataCode ≠ some od.destinationLocationCode then Except.ok false
        else if !startsWithStr (dep.at_.getD "") (od.date ++ "T") then Except.ok false
        else matchLoop (odIdx + 1) rest

/-- Embeds `matches_routes_no_time` (monitor.py lines 143-171): requires at
least 3 itineraries, then checks every itinerary's first segment against the
expected origin, destination and departure date. -/
def matches_routes_no_time (offer : Offer) : Except Unit Bool :=
  if offer.itineraries.length < 3 then Except.ok false
  else matchLoop 1 offer.itineraries

/-- Brand test of one fare-detail record (monitor.py lines 177-178):
case-insensitive containment of `OPTIMA` or `OPTIMAL` in the branded-fare
name, with `fd.get("brandedFare") or ""` mapping a missing name to `""`. -/
def accepted_brand (fd : FareDetail) : Bool :=
  hasSubstr (upperChars (fd.brandedFare.getD "")) (("OPTIMA").toList) ||
  hasSubstr (upperChars (fd.brandedFare.getD "")) (("OPTIMAL").toList)

/-- Embeds `branded_is_optima` (monitor.py lines 173-180): scans every
traveler-pricing entry's fare-detail records for an accepted brand name. -/
def branded_is_optima (offer : Offer) : Bool :=
  offer.travelerPricings.any fun t =>
    t.fareDetailsBySegment.any fun fd => accepted_brand fd

/-- Embeds `price_float` (monitor.py lines 182-186):
`float(offer.get("price", {}).get("grandTotal", "9999999"))` with the
`except` fallback 9999999.0. -/
def price_float (offer : Offer) : ℚ :=
  (pyFloat ((offer.price.bind PriceRec.grandTotal).getD ("9999999"))).getD 9999999

/-- Total price used inside `summarize_offer` (monitor.py lines 193-197):
the grand total with default `"0"`, and 0.0 on a parse failure. -/
def offer_total_f (offer : Offer) : ℚ :=
  (pyFloat ((offer.price.bind PriceRec.grandTotal).getD ("0"))).getD 0

/-- Per-itinerary duration in minutes (monitor.py lines 204-215): text after
a leading `PT` (empty otherwise) parsed as hours/minutes, `h*60 + m`. -/
def leg_minutes (dur : String) : Except Unit Int :=
  match parse_hm (if startsWithStr dur ("PT") then dur.toList.drop 2 else []) with
  | Except.error e => Except.error e
  | Except.ok hm => Except.ok (hm.1 * 60 + hm.2)

/-- Minute list over the itineraries (monitor.py lines 203-215); the
`duration` key defaults to `""`. -/
def offer_mins : List Itinerary → Except Unit (List Int)
  | [] => Except.ok []
  | itin :: rest =>
    match leg_minutes (itin.duration.getD "") with
    | Except.error e => Except.error e
    | Except.ok mm =>
      match offer_mins rest with
      | Except.error e => Except.error e
      | Except.ok ms => Except.ok (mm :: ms)

/-- Embeds the per-leg estimate of `summarize_offer` (monitor.py lines
202-223): prorate the grand total by each itinerary's share of the summed
duration; if the sum is not positive, split equally over
`max 1 (number of itineraries)`. -/
def per_leg_est (offer : Offer) : Except Unit (List ℚ) :=
  match offer_mins offer.itineraries with
  | Except.error e => Except.error e
  | Except.ok mins =>
    let total_mins := mins.sum
    if 0 < total_mins then
      Except.ok (mins.map fun mm => offer_total_f offer * ((mm : ℚ) / (total_mins : ℚ)))
    else
      Except.ok (List.replicate (max 1 offer.itineraries.length)
        (offer_total_f offer / ((max 1 offer.itineraries.length : ℕ) : ℚ)))

/-- Classification of the run-to-run note built at monitor.py lines
399-407; the constructors carry the amounts the source formats into the
note text (display formatting of the amount is not modelled). -/
inductive ChangeNote where
  | first_run
  | up (amount : ℚ)
  | down (amount : ℚ)
  | unchanged
deriving DecidableEq

/-- Embeds the change-note computation (monitor.py lines 399-407): with no
stored price the note is `(first run)`; otherwise strict comparison of the
run's best price against the stored price decides up / down / unchanged. -/
def change_note (best_price : ℚ) (last_price : Option ℚ) : ChangeNote :=
  match last_price with
  | none => ChangeNote.first_run
  | some lp =>
    if lp < best_price then ChangeNote.up (best_price - lp)
    else if best_price < lp then ChangeNote.down (lp - best_price)
    else ChangeNote.unchanged

/-- Sort key of the candidate ordering (monitor.py line 385):
`(not branded_is_optima(o), price_float(o))`. -/
def sort_key (o : Offer) : Bool × ℚ :=
  (!branded_is_optima o, price_float o)

/-- Lexicographic comparison of sort keys, with `false < true` on the first
component as in Python tuple ordering. -/
def sort_key_le (a b : Offer) : Bool :=
  (!(sort_key a).1 && (sort_key b).1) ||
  ((sort_key a).1 == (sort_key b).1 && decide ((sort_key a).2 ≤ (sort_key b).2))

/-- Embeds `candidates.sort(key=...)` (monitor.py line 385): Python's sort
is stable, modelled by the stable `List.mergeSort`. -/
def rank (l : List Offer) : List Offer :=
  l.mergeSort sort_key_le

/-- One step of the running best (monitor.py line 395-396):
`if best_price is None or total_f < best_price: best_price = total_f`. -/
def best_update (best : Option ℚ) (v : ℚ) : Option ℚ :=
  match best with
  | none => some v
  | some b => if v < b then some v else some b

/-- Embeds the best-price loop (monitor.py lines 388-396): the loop breaks
once `i > TOP_N`, so only the first `top_n` candidates contribute. -/
def best_price_of (top_n : Nat) (candidates : List Offer) : Option ℚ :=
  (candidates.take top_n).foldl (fun best off => best_update best (offer_total_f off)) none

/-- Embeds the candidate filter (monitor.py line 370); an exception raised
by `matches_routes_no_time` aborts the whole comprehension. -/
def candidates_of : List Offer → Except Unit (List Offer)
  | [] => Except.ok []
  | off :: rest =>
    match matches_routes_no_time off with
    | Except.error e => Except.error e
    | Except.ok b =>
      match candidates_of rest with
      | Except.error e => Except.error e
      | Except.ok tail => Except.ok (if b then off :: tail else tail)

/-- Persisted `last_price` effect of one run of `main` (monitor.py lines
368-410): with no qualifying candidate the function returns before
`save_last_price`, so the stored value stays `prev`; otherwise the ranked
top-`top_n` best is stored.  Network, rendering and notification are
omitted. -/
def main_last_price (top_n : Nat) (offers : List Offer) (prev : Option ℚ) :
    Except Unit (Option ℚ) :=
  match candidates_of offers with
  | Except.error e => Except.error e
  | Except.ok cands =>
    if cands.isEmpty then Except.ok prev
    else Except.ok (best_price_of top_n (rank cands))

/-- Persisted per-key state of the spec's alert machine (spec §4.5):
`{lastPrice, alertedBelow}`. -/
structure ItineraryState where
  lastPrice : Option ℚ
  alertedBelow : Bool
deriving DecidableEq

/-- Modelled from the spec: the Alert State Machine transition of §4.5 is
absent from src/ (monitor.py persists only the scalar `last_price` and has
no threshold or `alertedBelow` flag).  Given a new observation: fire one
alert and set the flag when the price is strictly below a set threshold and
the flag is clear; clear the flag without an event when the price is at or
above the threshold and the flag is set; always store the price; with no
threshold, only store the price. -/
def alert_step (threshold : Option ℚ) (price : ℚ) (s : ItineraryState) :
    ItineraryState × Bool :=
  match threshold with
  | none => (ItineraryState.mk (some price) s.alertedBelow, false)
  | some t =>
    if price < t ∧ s.alertedBelow = false then (ItineraryState.mk (some price) true, true)
    else if t ≤ price ∧ s.alertedBelow = true then (ItineraryState.mk (some price) false, false)
    else (ItineraryState.mk (some price) s.alertedBelow, false)

/-- Folds `alert_step` over a price sequence, counting emitted alert
events. -/
def alert_run (threshold : Option ℚ) (prices : List ℚ) (s : ItineraryState) :
    ItineraryState × Nat :=
  prices.foldl
    (fun acc p =>
      let r := alert_step threshold p acc.1
      (r.1, acc.2 + (if r.2 then 1 else 0)))
    (s, 0)

/-- Modelled from the spec: the full-run state update of §4.5 over the
spec's `{lastPrice, alertedBelow}` state, which is absent from src/.  The
candidate filter and best-price selection follow the code (monitor.py lines
370-396); per the spec's missing-observation policy (§4.5, last paragraph)
a run with no qualifying offer leaves the state untouched, matching the
code's early return before `save_last_price` (lines 375-382). -/
def run_with_state (threshold : Option ℚ) (top_n : Nat) (offers : List Offer)
    (st : ItineraryState) : Except Unit ItineraryState :=
  match candidates_of offers with
  | Except.error e => Except.error e
  | Except.ok cands =>
    if cands.isEmpty then Except.ok st
    else
      match best_price_of top_n (rank cands) with
      | none => Except.error ()
      | some b => Except.ok (alert_step threshold b st).1

/-- Follows the spec's words (§4.3, price extraction fallback chain), for
comparison with `price_float`: prefer a declared per-adult total (the
offer shape the code reads exposes no such field, so the first method never
yields a value and is omitted here); else average the per-traveler totals
of the travelers typed as adults; else divide the grand total by the
configured adult count. -/
def spec_price_chain (adult_count : Nat) (o : Offer) : Option ℚ :=
  let adult_totals :=
    (o.travelerPricings.filter fun t => t.travelerType == some ("ADULT")).filterMap
      fun t => (t.price.bind PriceRec.total).bind pyFloat
  if 0 < adult_totals.length then
    some (adult_totals.sum / (adult_totals.length : ℚ))
  else
    ((o.price.bind PriceRec.grandTotal).bind pyFloat).map fun g => g / (adult_count : ℚ)

/-- An offer with no itineraries at all: a minimal non-matching input. -/
def offer_noitin : Offer := Offer.mk [] none []

/-- A segment departing SJU for FCO on the first requested date. -/
def seg1 : Segment :=
  Segment.mk (some (Endpoint.mk (some ("SJU")) (some ("2026-05-06T08:00:00"))))
    (some (Endpoint.mk (some ("FCO")) none))

/-- A segment departing FCO for MAD on the second requested date. -/
def seg2 : Segment :=
  Segment.mk (some (Endpoint.mk (some ("FCO")) (some ("2026-05-17T10:30:00"))))
    (some (Endpoint.mk (some ("MAD")) none))

/-- A segment departing MAD for SJU on the third requested date. -/
def seg3 : Segment :=
  Segment.mk (some (Endpoint.mk (some ("MAD")) (some ("2026-05-20T14:00:00"))))
    (some (Endpoint.mk (some ("SJU")) none))

/-- An offer whose first three itineraries match the requested legs and
which carries a fourth itinerary with a (content-free) segment: the input
on which `matches_routes_no_time` hits the out-of-range
`ORIGIN_DESTINATIONS[3]` access. -/
def offer_four_itins : Offer :=
  Offer.mk
    [Itinerary.mk none [seg1], Itinerary.mk none [seg2], Itinerary.mk none [seg3],
     Itinerary.mk none [Segment.mk none none]]
    (some (PriceRec.mk (some ("1200")) none)) []

/-- The same offer restricted to the three matching itineraries. -/
def offer_three_itins : Offer :=
  Offer.mk [Itinerary.mk none [seg1], Itinerary.mk none [seg2], Itinerary.mk none [seg3]]
    (some (PriceRec.mk (some ("1200")) none)) []

/-- An offer with no usable grand total but four adult traveler totals of
100 each: the spec's fallback chain yields 100 where the code yields its
9999999.0 sentinel. -/
def offer_adults_only : Offer :=
  Offer.mk [] none
    (List.replicate 4
      (TravelerPricing.mk (some ("ADULT")) (some (PriceRec.mk none (some ("100")))) []))

/-- Two itineraries of 120 and 60 minutes, grand total 300. -/
def offer_prorate : Offer :=
  Offer.mk [Itinerary.mk (some ("PT2H")) [], Itinerary.mk (some ("PT1H")) []]
    (some (PriceRec.mk (some ("300")) none)) []

/-- Two itineraries whose durations parse to 0 minutes, grand total 300. -/
def offer_zero_durations : Offer :=
  Offer.mk [Itinerary.mk (some ("")) [], Itinerary.mk (some ("X")) []]
    (some (PriceRec.mk (some ("300")) none)) []

/-- A brand-matching (OPTIMA) offer priced 100. -/
def offer_brand_100 : Offer :=
  Offer.mk [] (some (PriceRec.mk (some ("100")) none))
    [TravelerPricing.mk (some ("ADULT")) none [FareDetail.mk (some ("OPTIMA"))]]

/-- A non-brand offer priced 100. -/
def offer_plain_100 : Offer :=
  Offer.mk [] (some (PriceRec.mk (some ("100")) none)) []

/-- A non-brand offer priced 100 with a distinguishing itinerary, sharing
its sort key with `offer_plain_100`. -/
def offer_plain_100b : Offer :=
  Offer.mk [Itinerary.mk (some ("PT1H")) []] (some (PriceRec.mk (some ("100")) none)) []

/-- A brand-matching offer priced 200. -/
def offer_brand_200 : Offer :=
  Offer.mk [] (some (PriceRec.mk (some ("200")) none))
    [TravelerPricing.mk (some ("ADULT")) none [FareDetail.mk (some ("optimal"))]]


/-- A two-element merge sort just orders the pair by the comparison. -/
theorem mergeSort_pair_eq {α : Type} (le : α → α → Bool) (a b : α) :
    List.mergeSort [a, b] le = if le a b then [a, b] else [b, a] := by
  rw [List.mergeSort]
  by_cases h : le a b <;> simp [h, List.merge]

/-- The candidate comparison is total. -/
theorem sort_key_le_total (a b : Offer) : sort_key_le a b || sort_key_le b a := by
  unfold sort_key_le
  rcases le_total (sort_key a).2 (sort_key b).2 with h | h <;>
    cases hA : (sort_key a).1 <;> cases hB : (sort_key b).1 <;> simp [h, hA, hB]

/-- The candidate comparison is transitive. -/
theorem sort_key_le_trans (a b c : Offer) (h1 : sort_key_le a b) (h2 : sort_key_le b c) :
    sort_key_le a c := by
  unfold sort_key_le at h1 h2 ⊢
  cases hA : (sort_key a).1 <;> cases hB : (sort_key b).1 <;> cases hC : (sort_key c).1 <;>
    simp_all
  all_goals exact le_trans h1 h2

/-- The candidate comparison is reflexive. -/
theorem sort_key_le_refl (a : Offer) : sort_key_le a a = true := by
  simp [sort_key_le]

/-- Below a branded offer in the candidate order there is only branded. -/
theorem branded_of_le_branded {u v : Offer} (h : sort_key_le u v = true)
    (hv : branded_is_optima v = true) : branded_is_optima u = true := by
  by_contra hu
  rw [Bool.not_eq_true] at hu
  simp [sort_key_le, sort_key, hu, hv] at h

/-- In a list ordered by the candidate comparison, whenever it holds at
least `n` branded offers, the first `n` entries are all branded. -/
theorem take_all_branded : ∀ (r : List Offer) (n : Nat),
    List.Pairwise (fun u v => sort_key_le u v = true) r →
    n ≤ r.countP (fun o => branded_is_optima o) →
    ∀ y ∈ r.take n, branded_is_optima y = true := by
  intro r
  induction r with
  | nil => intro n _ _ y hy; simp at hy
  | cons u rest ih =>
    intro n hp hc y hy
    rcases n with _ | m
    · simp at hy
    · rw [List.pairwise_cons] at hp
      rw [List.countP_cons] at hc
      by_cases hbu : branded_is_optima u = true
      · rw [List.take_succ_cons] at hy
        rcases List.mem_cons.mp hy with rfl | hy2
        · exact hbu
        · refine ih m hp.2 ?_ y hy2
          simp [hbu] at hc
          omega
      · exfalso
        have hz : rest.countP (fun o => branded_is_optima o) = 0 := by
          rw [List.countP_eq_zero]
          intro v hv hbv
          exact hbu (branded_of_le_branded (hp.1 v hv) (by simpa using hbv))
        rw [Bool.not_eq_true] at hbu
        simp [hbu, hz] at hc

/-- The best-price loop over offers equals a fold over the extracted
totals of the first `top_n` candidates. -/
theorem best_price_of_eq_map (n : Nat) (l : List Offer) :
    best_price_of n l = ((l.take n).map offer_total_f).foldl best_update none := by
  rw [best_price_of, List.foldl_map]

/-- Only the first `top_n` candidates influence the best price. -/
theorem best_price_of_take (n : Nat) (l : List Offer) :
    best_price_of n l = best_price_of n (l.take n) := by
  simp [best_price_of, List.take_take]

/-- Folding the best-update over any list from a present accumulator stays
present. -/
theorem foldl_best_update_some : ∀ (l : List ℚ) (a : ℚ),
    ∃ b, l.foldl best_update (some a) = some b := by
  intro l
  induction l with
  | nil => intro a; exact ⟨a, rfl⟩
  | cons v t ih =>
    intro a
    rw [List.foldl_cons]
    by_cases h : v < a <;> simp [best_update, h] <;> exact ih _

/-- A value produced by the best-update fold comes from the list or from
the accumulator. -/
theorem foldl_best_update_mem : ∀ (l : List ℚ) (acc : Option ℚ) (b : ℚ),
    l.foldl best_update acc = some b → b ∈ l ∨ acc = some b := by
  intro l
  induction l with
  | nil => intro acc b h; exact Or.inr h
  | cons v t ih =>
    intro acc b h
    rw [List.foldl_cons] at h
    rcases ih (best_update acc v) b h with h1 | h2
    · exact Or.inl (List.mem_cons_of_mem _ h1)
    · rcases acc with _ | a
      · simp [best_update] at h2
        exact Or.inl (by simp [h2])
      · by_cases hlt : v < a
        · simp [best_update, hlt] at h2
          exact Or.inl (by simp [h2])
        · simp [best_update, hlt] at h2
          exact Or.inr (by simp [h2])

/-- On a nonempty list of totals all above `x`, the best-update fold yields
a value above `x`. -/
theorem best_fold_pos (x : ℚ) : ∀ (l : List ℚ), l ≠ [] → (∀ y ∈ l, x < y) →
    ∃ b, l.foldl best_update none = some b ∧ x < b := by
  intro l hne hall
  rcases l with _ | ⟨v, t⟩
  · exact absurd rfl hne
  · rw [List.foldl_cons]
    have hbu : best_update none v = some v := rfl
    rw [hbu]
    obtain ⟨b, hb⟩ := foldl_best_update_some t v
    refine ⟨b, hb, ?_⟩
    rcases foldl_best_update_mem t (some v) b hb with h1 | h2
    · exact hall b (List.mem_cons_of_mem _ h1)
    · have hvb : v = b := by simpa using h2
      exact hvb ▸ hall v (List.mem_cons_self _ _)

/-- C1: over the spec-modelled alert state machine with a configured
threshold, an alert event is emitted exactly when the new price is strictly
below the threshold while the flag is clear, the stored flag afterwards
equals "price below threshold" (so it is set on firing and cleared, without
an event, on recovery), the price is always stored, and the sequence
[900, 800, 820, 700, 900, 600] against threshold 850 emits exactly 2
alerts. -/
theorem C1_alert_edge_trigger (t price : ℚ) (s : ItineraryState) :
    (alert_step (some t) price s).2 = (decide (price < t) && !s.alertedBelow) ∧
    (alert_step (some t) price s).1.alertedBelow = decide (price < t) ∧
    (alert_step (some t) price s).1.lastPrice = some price ∧
    (alert_run (some 850) [900, 800, 820, 700, 900, 600]
      (ItineraryState.mk none false)).2 = 2 := by
  refine ⟨?_, ?_, ?_, by decide⟩ <;>
  · rcases s with ⟨lp, ab⟩
    by_cases h : price < t
    · cases ab <;> simp [alert_step, h, not_le.mpr h]
    · cases ab <;> simp [alert_step, h, not_lt.mp h]

/-- C2: a run in which no offer qualifies writes nothing: the persisted
last price stays `prev`, and the spec-modelled `{lastPrice, alertedBelow}`
state is returned unchanged. -/
theorem C2_missing_observation_frame (t : Option ℚ) (n : Nat) (offers : List Offer)
    (st : ItineraryState) (prev : Option ℚ)
    (h : candidates_of offers = Except.ok []) :
    main_last_price n offers prev = Except.ok prev ∧
    run_with_state t n offers st = Except.ok st := by
  constructor <;> simp [main_last_price, run_with_state, h]

/-- Witness for C2 at a run whose only offer has no itineraries and with
the persisted state `lastPrice=500, alertedBelow=true`. -/
theorem C2_witness :
    main_last_price 10 [offer_noitin] (some 500) = Except.ok (some 500) ∧
    run_with_state (some 850) 10 [offer_noitin] (ItineraryState.mk (some 500) true) =
      Except.ok (ItineraryState.mk (some 500) true) :=
  C2_missing_observation_frame (some 850) 10 [offer_noitin]
    (ItineraryState.mk (some 500) true) (some 500) (by decide)

/-- C3 counterexample: with stored price 100 and new price 100.001 the
absolute difference is below the claimed epsilon 0.005, yet the code
classifies the note as "up", not "unchanged". -/
theorem C3_delta_note_epsilon_cex :
    ((100 : ℚ) + 1 / 1000) - 100 < 1 / 200 ∧
    (0 : ℚ) < ((100 : ℚ) + 1 / 1000) - 100 ∧
    change_note ((100 : ℚ) + 1 / 1000) (some 100) = ChangeNote.up (1 / 1000) := by
  refine ⟨by norm_num, by norm_num, ?_⟩
  rw [change_note]
  norm_num

/-- C3 amended: the delta note is "(first run)" with no stored price;
otherwise the comparison is exact, with no epsilon: strictly greater gives
"up", strictly smaller gives "down", and exact equality gives
"unchanged". -/
theorem C3_delta_note_exact (p lp : ℚ) :
    change_note p none = ChangeNote.first_run ∧
    (change_note p (some lp) = ChangeNote.up (p - lp) ↔ lp < p) ∧
    (change_note p (some lp) = ChangeNote.down (lp - p) ↔ p < lp) ∧
    (change_note p (some lp) = ChangeNote.unchanged ↔ p = lp) := by
  refine ⟨rfl, ?_, ?_, ?_⟩ <;>
    rcases lt_trichotomy lp p with h | h | h <;>
      first
        | (subst h; simp [change_note, lt_irrefl])
        | simp [change_note, h, lt_asymm h, h.ne, h.ne']

/-- C4: ranking is the stable sort by `(not branded, price)` ascending: a
brand-matching offer and a non-brand offer of identical price are ordered
brand-first whichever way they arrive, an equal-key pair keeps its
first-seen order, and the ranking is a permutation of its input. -/
theorem C4_brand_tie_break (a b c d : Offer) (l : List Offer)
    (hab : price_float a = price_float b)
    (ha : branded_is_optima a = true) (hb : branded_is_optima b = false)
    (hcd : sort_key c = sort_key d) (hsub : List.Sublist [c, d] l) :
    rank [a, b] = [a, b] ∧ rank [b, a] = [a, b] ∧
    List.Sublist [c, d] (rank l) ∧ (rank l).Perm l := by
  have hle : sort_key_le a b = true := by
    simp [sort_key_le, sort_key, ha, hb]
  have hnle : sort_key_le b a = false := by
    simp [sort_key_le, sort_key, ha, hb]
  have hlecd : sort_key_le c d = true := by
    unfold sort_key_le
    rw [hcd]
    simp
  refine ⟨?_, ?_, ?_, List.mergeSort_perm l sort_key_le⟩
  · rw [rank, mergeSort_pair_eq, hle]
    simp
  · rw [rank, mergeSort_pair_eq, hnle]
    simp
  · exact List.pair_sublist_mergeSort sort_key_le_trans sort_key_le_total hlecd hsub

/-- Witness for C4 with a branded and a plain offer both priced 100, and an
equal-key plain pair in first-seen order. -/
theorem C4_witness :
    rank [offer_brand_100, offer_plain_100] = [offer_brand_100, offer_plain_100] ∧
    rank [offer_plain_100, offer_brand_100] = [offer_brand_100, offer_plain_100] ∧
    List.Sublist [offer_plain_100, offer_plain_100b]
      (rank [offer_plain_100, offer_plain_100b]) ∧
    (rank [offer_plain_100, offer_plain_100b]).Perm [offer_plain_100, offer_plain_100b] :=
  C4_brand_tie_break offer_brand_100 offer_plain_100 offer_plain_100 offer_plain_100b
    [offer_plain_100, offer_plain_100b] (by decide) (by decide) (by decide) (by decide)
    (List.Sublist.refl _)

/-- C5 counterexample: on an offer with adult traveler totals of 100 but no
grand total, the spec's fallback chain yields 100 while the code's
extraction yields its 9999999.0 sentinel, so the code does not implement
the chain. -/
theorem C5_fallback_chain_cex :
    spec_price_chain 4 offer_adults_only = some 100 ∧
    price_float offer_adults_only = 9999999 ∧
    (9999999 : ℚ) ≠ 100 := by
  have h1 : ((offer_adults_only.travelerPricings.filter
      fun t => t.travelerType == some ("ADULT")).filterMap
      fun t => (t.price.bind PriceRec.total).bind pyFloat) = [100, 100, 100, 100] := by
    decide
  refine ⟨?_, by decide, by norm_num⟩
  simp only [spec_price_chain, h1]
  norm_num

/-- C5 amended: the ranking/comparison price is always the parsed
`grandTotal` of the offer's price record (sentinel 9999999.0 when it is
absent or unparsable); traveler pricing entries and itineraries are never
consulted, so no fallback chain exists. -/
theorem C5_price_uses_grandtotal_only (o : Offer) (tp : List TravelerPricing)
    (itins : List Itinerary) :
    price_float (Offer.mk itins o.price tp) = price_float o ∧
    price_float (Offer.mk itins none tp) = 9999999 ∧
    price_float (Offer.mk itins (some (PriceRec.mk (some ("x")) none)) tp) = 9999999 := by
  refine ⟨rfl, ?_, ?_⟩
  · rw [show price_float (Offer.mk itins none tp) = price_float offer_noitin from rfl]
    decide
  · rw [show price_float (Offer.mk itins (some (PriceRec.mk (some ("x")) none)) tp) =
      price_float (Offer.mk [] (some (PriceRec.mk (some ("x")) none)) []) from rfl]
    decide

/-- C7: the matcher is not total: an offer whose first three itineraries
match the requested legs but which carries a fourth itinerary with a
nonempty segment list drives `od_idx` to 4 and the expected-leg lookup
`ORIGIN_DESTINATIONS[3]` raises IndexError, while three-itinerary inputs
(matching or degenerate) return plain booleans. -/
theorem C7_matcher_raises_on_extra_itins :
    matches_routes_no_time offer_four_itins = Except.error () ∧
    matches_routes_no_time offer_three_itins = Except.ok true ∧
    matches_routes_no_time offer_noitin = Except.ok false := by
  refine ⟨by decide, by decide, by decide⟩

/-- C8: the brand check succeeds exactly when some traveler-pricing entry
has a fare-detail record whose brand name contains OPTIMA or OPTIMAL
case-insensitively, and an offer without traveler-pricing entries is never
brand-matching. -/
theorem C8_brand_scan (o : Offer) :
    (branded_is_optima o = true ↔
      ∃ t ∈ o.travelerPricings, ∃ fd ∈ t.fareDetailsBySegment, accepted_brand fd = true) ∧
    branded_is_optima (Offer.mk o.itineraries o.price []) = false := by
  constructor
  · simp [branded_is_optima, List.any_eq_true]
  · rfl

/-- C9: duration formatting is not total: `"PTxH"` reaches `int("x")` and
raises, while non-`PT` strings pass through unchanged, `None` renders as
the empty string, a missing hour part defaults to 0, and both components
are always shown. -/
theorem C9_duration_parse_raises :
    format_duration (some ("PTxH")) = Except.error () ∧
    format_duration (some ("10:25")) = Except.ok ("10:25") ∧
    format_duration none = Except.ok ("") ∧
    format_duration (some ("PT5M")) = Except.ok ("0h 5m") ∧
    format_duration (some ("PT10H25M")) = Except.ok ("10h 25m") := by
  refine ⟨by decide, by decide, by decide, by decide, by decide⟩

/-- C6: the per-leg estimates prorate the grand total in proportion to each
itinerary's minutes, falling back to an equal split when the summed minutes
are not positive; durations 120/60 with total 300 give 200 and 100, and two
zero-minute itineraries with total 300 give 150 and 150. -/
theorem C6_per_leg_proration (o : Offer) (mins : List Int)
    (h : offer_mins o.itineraries = Except.ok mins) :
    per_leg_est o = Except.ok (if 0 < mins.sum
      then mins.map fun mm => offer_total_f o * ((mm : ℚ) / ((mins.sum : ℤ) : ℚ))
      else List.replicate (max 1 o.itineraries.length)
        (offer_total_f o / ((max 1 o.itineraries.length : ℕ) : ℚ))) ∧
    per_leg_est offer_prorate = Except.ok [200, 100] ∧
    per_leg_est offer_zero_durations = Except.ok [150, 150] := by
  refine ⟨?_, ?_, ?_⟩
  · simp only [per_leg_est, h]
    split <;> rfl
  · have hm : offer_mins offer_prorate.itineraries = Except.ok [120, 60] := by decide
    have ht : offer_total_f offer_prorate = 300 := by decide
    simp only [per_leg_est, hm, ht]
    norm_num
  · have hm : offer_mins offer_zero_durations.itineraries = Except.ok [0, 0] := by decide
    have ht : offer_total_f offer_zero_durations = 300 := by decide
    have hl : offer_zero_durations.itineraries.length = 2 := by decide
    simp only [per_leg_est, hm, ht, hl]
    norm_num [List.replicate]

/-- Witness for C6 at the 120/60-minute offer. -/
theorem C6_witness :
    per_leg_est offer_prorate = Except.ok (if 0 < List.sum [(120 : ℤ), 60]
      then [(120 : ℤ), 60].map fun mm =>
        offer_total_f offer_prorate * ((mm : ℚ) / ((List.sum [(120 : ℤ), 60] : ℤ) : ℚ))
      else List.replicate (max 1 offer_prorate.itineraries.length)
        (offer_total_f offer_prorate /
          ((max 1 offer_prorate.itineraries.length : ℕ) : ℚ))) ∧
    per_leg_est offer_prorate = Except.ok [200, 100] ∧
    per_leg_est offer_zero_durations = Except.ok [150, 150] :=
  C6_per_leg_proration offer_prorate [120, 60] (by decide)

/-- C10: the persisted/reported best price of a run ranges only over the
first `n` entries of the brand-first ranking, so when the first `n` ranked
offers (all branded, because at least `n` branded candidates outrank every
non-brand one) are each dearer than some qualifying offer `x`, the best
price is strictly above the price of `x`. -/
theorem C10_topn_best_price (n : Nat) (candidates : List Offer) (x : Offer)
    (hn : 1 ≤ n)
    (hcount : n ≤ candidates.countP (fun o => branded_is_optima o))
    (hx : x ∈ candidates)
    (hxb : branded_is_optima x = false)
    (hcheap : ∀ y ∈ candidates, branded_is_optima y = true →
      offer_total_f x < offer_total_f y) :
    best_price_of n (rank candidates) = best_price_of n ((rank candidates).take n) ∧
    offer_total_f x < (best_price_of n (rank candidates)).getD (offer_total_f x) := by
  refine ⟨best_price_of_take n (rank candidates), ?_⟩
  have hperm : (rank candidates).Perm candidates := List.mergeSort_perm candidates sort_key_le
  have hsorted : List.Pairwise (fun u v => sort_key_le u v = true) (rank candidates) :=
    List.sorted_mergeSort sort_key_le_trans sort_key_le_total candidates
  have hcount2 : n ≤ (rank candidates).countP (fun o => branded_is_optima o) := by
    rw [hperm.countP_eq]
    exact hcount
  have hbrand : ∀ y ∈ (rank candidates).take n, branded_is_optima y = true :=
    take_all_branded (rank candidates) n hsorted hcount2
  have hlen : n ≤ (rank candidates).length :=
    le_trans hcount2 (List.countP_le_length _)
  have hne : ((rank candidates).take n).map offer_total_f ≠ [] := by
    have hl : (((rank candidates).take n).map offer_total_f).length = n := by
      simp [List.length_take]
      omega
    intro hcon
    rw [hcon] at hl
    simp at hl
    omega
  have hall : ∀ q ∈ ((rank candidates).take n).map offer_total_f, offer_total_f x < q := by
    intro q hq
    obtain ⟨y, hy, rfl⟩ := List.mem_map.mp hq
    exact hcheap y (hperm.mem_iff.mp ((List.take_subset n _) hy)) (hbrand y hy)
  obtain ⟨b, hb, hxlt⟩ := best_fold_pos (offer_total_f x) _ hne hall
  rw [best_price_of_eq_map, hb]
  simpa using hxlt

/-- Witness for C10 with one plain 100-priced offer outranked by one
branded 200-priced offer under a top-1 cut. -/
theorem C10_witness :
    best_price_of 1 (rank [offer_plain_100, offer_brand_200]) =
      best_price_of 1 ((rank [offer_plain_100, offer_brand_200]).take 1) ∧
    offer_total_f offer_plain_100 <
      (best_price_of 1 (rank [offer_plain_100, offer_brand_200])).getD
        (offer_total_f offer_plain_100) :=
  C10_topn_best_price 1 [offer_plain_100, offer_brand_200] offer_plain_100
    (by decide) (by decide) (by decide) (by decide) (by decide)
